import Mathlib

/-!
Shallow embedding of the log segmentation and aggregation engine of the
`analytics` package (files `analytics/event.py`, `analytics/logparser.py`,
`analytics/instance.py`).

Conventions of the embedding:
* Python `int` timestamps and thresholds become `Int`.
* A Python log row (a 4-element list whose first entry has been converted to
  `int`) becomes the structure `Row`.
* Python runtime exceptions (`TypeError` from `len` on an object that defines
  no `__len__`, `AttributeError` for a missing attribute, `ValueError` from
  `int(...)`, and the repository's own `LogparserException`) become the
  `PyErr` type, and any code path that can raise returns `Except PyErr _`.
* `Event.line` in the source can become a half-integer (`create_pause_next`
  sets `line = self.line + len(self.rows) + 0.5`), so the embedding stores
  `line2`, twice the Python value, which keeps every occurring value integral.
* Python dicts keyed by strings become association lists (`List (String × _)`)
  updated in insertion order; Python sets of strings become duplicate-free
  lists grown in insertion order.
-/

/-- A validated log row after integer conversion of the timestamp:
`row[0]` is `time`, `row[1]` is `code`, `row[2]` is `xpath`,
`row[3]` is `value`. -/
structure Row where
  time : Int
  code : String
  xpath : String
  value : String
deriving Repr, DecidableEq

/-- Python runtime errors that the engine's code paths can raise.
`attributeError s` records which attribute lookup failed. -/
inductive PyErr where
  | typeError : PyErr
  | attributeError : String → PyErr
  | valueError : PyErr
  | logparserError : PyErr
  | indexError : PyErr
deriving Repr, DecidableEq

/-- The `Event` class of `analytics/event.py`: the rows collapsed into the
event, the (doubled, see module comment) starting line, the shared code, the
time bounds, the monotonicity flag and the derived stage. -/
structure Event where
  rows : List Row
  line2 : Int
  code : String
  start_time : Int
  max_time : Int
  min_time : Int
  increasing : Bool
  stage : String
deriving Repr, DecidableEq

namespace Event

/-- Python `Event.relations`: codes for a form relation event. -/
def relations : List String := ["rC", "rV", "rS"]

/-- Python `Event.bookends`: codes for a bookend event. -/
def bookends : List String := ["BF", "FF"]

/-- Python `Event.bookend_xpaths`: log xpaths for a bookend event. -/
def bookend_xpaths : List String := ["uC", "BF", "FF", "null"]

/-- Python `Event.multiples`: codes that can correctly be repeated in a log. -/
def multiples : List String := ["rS", "SF", "CC"]

/-- Python `Event.RELATION` constant. -/
def RELATION : String := "RELATION"

/-- Python `Event.BOOKEND` constant. -/
def BOOKEND : String := "BOOKEND"

/-- Python `Event.QUESTION` constant. -/
def QUESTION : String := "QUESTION"

/-- Python `Event.get_stage(code, xpath)`: `RELATION` if the code is a relation
code, else `BOOKEND` if the code is a bookend code or the xpath is a bookend
xpath, else `QUESTION`. -/
def get_stage (code xpath : String) : String :=
  if relations.contains code then RELATION
  else if bookends.contains code || bookend_xpaths.contains xpath then BOOKEND
  else QUESTION

/-- Python `Event.__init__(row, line)`: start the event from one row.  `line2` is
twice the Python `line` argument. -/
def ofRow (row : Row) (line2 : Int) : Event :=
  { rows := [row]
    line2 := line2
    code := row.code
    start_time := row.time
    max_time := row.time
    min_time := row.time
    increasing := true
    stage := get_stage row.code row.xpath }

/-- Python `len(self.rows)` for an event's own row list (this is defined; what the
source lacks is `Event.__len__`, see `pyLen`). -/
def rowCount (e : Event) : Nat := e.rows.length

/-- Python `len(event)` on an `Event` instance.  The `Event` class defines no
`__len__` method, so Python raises `TypeError`; `logparser.py` nonetheless
evaluates `len(self.cur_event)` in `check_increasing` and `finalize`. -/
def pyLen (_ : Event) : Except PyErr Nat := .error .typeError

/-- Python `Event.last_time()`: the timestamp of `rows[-1]`.  `rows` is non-empty
for every event the program constructs (it starts as a one-row list and
never shrinks), so the `none` branch is unreachable. -/
def last_time (e : Event) : Int :=
  match e.rows.getLast? with
  | some r => r.time
  | none => 0

/-- Python `Event.add_row(row, line)`: raise `LogparserException` on a code
mismatch, otherwise update `max_time`/`min_time` and the `increasing` flag.
Note that the source never appends `row` to `self.rows`; the row list is
left unchanged. -/
def add_row (e : Event) (row : Row) : Except PyErr Event :=
  if row.code ≠ e.code then .error .logparserError
  else
    let e := { e with
      max_time := max e.max_time row.time
      min_time := min e.min_time row.time }
    let e :=
      if e.increasing ∧ row.time < e.last_time then { e with increasing := false }
      else e
    .ok e

/-- Python `Event.copy()`: rebuild the event from its first row, feeding the
remaining rows back through `add_row` (popping the first row of an empty
list would raise `IndexError`). -/
def copy (e : Event) : Except PyErr Event :=
  match e.rows with
  | [] => .error .indexError
  | first :: rest => rest.foldlM (fun acc r => acc.add_row r) (ofRow first e.line2)

/-- Python `Event.set_code(code)`: overwrite the code of every stored row and of
the event. -/
def set_code (e : Event) (code : String) : Event :=
  { e with rows := e.rows.map (fun r => { r with code := code }), code := code }

/-- Python `Event.set_time(time)`: overwrite every stored row's timestamp and all
three time fields, resetting `increasing`. -/
def set_time (e : Event) (time : Int) : Event :=
  { e with
    rows := e.rows.map (fun r => { r with time := time })
    start_time := time
    max_time := time
    min_time := time
    increasing := true }

/-- Python `Event.create_pause_next()`: copy this event, force its code to `oP` and
its time fields to `max_time + 1`, and place it half a line after this
event's rows (`line + len(rows) + 0.5`, hence `+ 1` on the doubled line). -/
def create_pause_next (e : Event) : Except PyErr Event := do
  let c ← e.copy
  let c := c.set_code "oP"
  let c := c.set_time (e.max_time + 1)
  .ok { c with line2 := e.line2 + 2 * (e.rows.length : Int) + 1 }

/-- Split a character list on `/`, mirroring the segment structure the
prompt regular expression inspects (always returns at least one, possibly
empty, segment). -/
def splitSlash : List Char → List (List Char)
  | [] => [[]]
  | c :: rest =>
    match splitSlash rest with
    | [] => [[c]]
    | h :: t => if c = '/' then [] :: h :: t else (c :: h) :: t

/-- The prompt name extracted from one xpath, per the regular expression
`(^|/)([^/]+)\x5b1\x5d$` of `Event.prompts`: if the xpath ends in the literal
three characters `[1]` and the path segment immediately before that suffix is
non-empty, that segment; otherwise the xpath unchanged. -/
def promptOf (xpath : String) : String :=
  let cs := xpath.toList
  if ['[', '1', ']'].isSuffixOf cs then
    let stem := cs.take (cs.length - 3)
    let seg := (splitSlash stem).getLastD []
    if seg = [] then xpath else seg.asString
  else xpath

/-- Python `Event.prompts()`: one prompt name per stored row, in row order. -/
def prompts (e : Event) : List String := e.rows.map (fun r => promptOf r.xpath)

/-- Python `Event.__sub__`: `self.max_time - other.min_time`. -/
def sub (a b : Event) : Int := a.max_time - b.min_time

/-- Python `Event.__gt__`: `self.min_time > other.max_time`. -/
def gtE (a b : Event) : Bool := a.min_time > b.max_time

/-- Python `Event.__lt__`: `self.max_time < other.min_time`. -/
def ltE (a b : Event) : Bool := a.max_time < b.min_time

end Event

/-- The mutable parsing state of `ParserHelper` (`logparser.py`), together
with the two thresholds it is constructed with. -/
structure ParserHelper where
  event_threshold : Int
  relation_threshold : Int
  cur_event : Option Event
  last_resume : Option Event
  prev_non_relation : Option Event
deriving Repr, DecidableEq

namespace ParserHelper

/-- Python `ParserHelper.__init__`: both remembered events start as `None` and no
run is open. -/
def init (event_threshold relation_threshold : Int) : ParserHelper :=
  { event_threshold := event_threshold
    relation_threshold := relation_threshold
    cur_event := none
    last_resume := none
    prev_non_relation := none }

/-- Python `ParserHelper.is_code_change(code)`. -/
def is_code_change (cur : Event) (code : String) : Bool := cur.code ≠ code

/-- Python `ParserHelper.is_time_split(time)`: compare against the relation
threshold when the open run's code is a relation code, else against the
event threshold. -/
def is_time_split (h : ParserHelper) (cur : Event) (time : Int) : Bool :=
  let threshold :=
    if Event.relations.contains cur.code then h.relation_threshold
    else h.event_threshold
  time - cur.start_time > threshold

/-- Python `ParserHelper.update_previous(line)`: remember the closing run as the
last resume (code `oR`), clear the last resume (code `oP`), and remember it
as the previous non-relation event whenever its code is not a relation code
(the warning it can log is omitted: logging carries no data). -/
def update_previous (h : ParserHelper) (cur : Event) : ParserHelper :=
  let h :=
    if cur.code = "oR" then { h with last_resume := some cur }
    else if cur.code = "oP" then { h with last_resume := none }
    else h
  if Event.relations.contains cur.code then h
  else { h with prev_non_relation := some cur }

/-- Python `ParserHelper.check_repeatable(time_split, code_change, line)`: when a
time split closes a run without a code change, the source evaluates
`self.cur_event.is_repeatable()`, but the `Event` class defines no
`is_repeatable` method, so the attribute lookup raises `AttributeError`.
On every other input the conjunction short-circuits and nothing happens. -/
def check_repeatable (time_split code_change : Bool) (_ : Event) :
    Except PyErr Unit :=
  if time_split ∧ ¬code_change then .error (.attributeError "Event.is_repeatable")
  else .ok ()

/-- Python `ParserHelper.check_increasing()`: when the run's `increasing` flag is
false the source computes `len(self.cur_event)` for its warning message,
which raises `TypeError` (`Event` has no `__len__`). -/
def check_increasing (cur : Event) : Except PyErr Unit :=
  if cur.increasing then .ok ()
  else
    match cur.pyLen with
    | .ok _ => .ok ()
    | .error e => .error e

/-- Python `ParserHelper.check_resume(this_code, line)`: when the incoming code is
`oR` while `last_resume` is still set, build a synthetic pause from
`prev_non_relation` (raising `AttributeError` on `None` if that is absent);
otherwise return `None`. -/
def check_resume (h : ParserHelper) (this_code : String) :
    Except PyErr (Option Event) :=
  if this_code = "oR" ∧ h.last_resume.isSome then
    match h.prev_non_relation with
    | none => .error (.attributeError "NoneType.create_pause_next")
    | some p => (p.create_pause_next).map some
  else .ok none

/-- Python `ParserHelper.parse_next_row(row, line)`: open a run on the first row;
on a time split or code change run the close sequence (`update_previous`,
`check_repeatable`, `check_increasing`, `check_resume`,
`replace_with_next`); otherwise feed the row to the open run via
`Event.add_row`.  The returned state reflects the mutations performed
before any raised error (Python mutates `self` in place). -/
def parse_next_row (h : ParserHelper) (row : Row) (line : Int) :
    ParserHelper × Except PyErr (List Event) :=
  match h.cur_event with
  | none => ({ h with cur_event := some (Event.ofRow row (2 * line)) }, .ok [])
  | some cur =>
    let time_split := h.is_time_split cur row.time
    let code_change := is_code_change cur row.code
    if time_split ∨ code_change then
      let h1 := h.update_previous cur
      match check_repeatable time_split code_change cur with
      | .error e => (h1, .error e)
      | .ok _ =>
        match check_increasing cur with
        | .error e => (h1, .error e)
        | .ok _ =>
          match h1.check_resume row.code with
          | .error e => (h1, .error e)
          | .ok pause =>
            let out := [cur] ++ pause.toList
            ({ h1 with cur_event := some (Event.ofRow row (2 * line)) }, .ok out)
    else
      match cur.add_row row with
      | .error e => (h, .error e)
      | .ok cur' => ({ h with cur_event := some cur' }, .ok [])

/-- Python `ParserHelper.finalize()`: the source first computes
`self.cur_event.line + len(self.cur_event) + 1`; with no open run the
attribute access on `None` raises `AttributeError`, and otherwise
`len(self.cur_event)` raises `TypeError` (`Event` has no `__len__`), so the
remainder of the method (`update_previous`, `check_increasing`,
`check_resume('oR')`, returning `[cur_event]` plus any synthetic pause) is
unreachable; it is nonetheless translated below, guarded by `pyLen`. -/
def finalize (h : ParserHelper) : ParserHelper × Except PyErr (List Event) :=
  match h.cur_event with
  | none => (h, .error (.attributeError "NoneType.line"))
  | some cur =>
    match cur.pyLen with
    | .error e => (h, .error e)
    | .ok _ =>
      let h1 := h.update_previous cur
      match check_increasing cur with
      | .error e => (h1, .error e)
      | .ok _ =>
        match h1.check_resume "oR" with
        | .error e => (h1, .error e)
        | .ok pause => (h1, .ok ([cur] ++ pause.toList))

end ParserHelper

/-- A Python `\w` word character, modelled over ASCII: a letter, a digit or
an underscore. -/
def wordChar (c : Char) : Bool := c.isAlphanum || c = '_'

namespace Logparser

/-- The default `event_threshold` of `Logparser.__init__`. -/
def default_event_threshold : Int := 0

/-- The default `relation_threshold` of `Logparser.__init__`. -/
def default_relation_threshold : Int := 60000

/-- Python `re.compile(r'\d\x7b13\x7d').match(s)` succeeds: the first 13 characters
exist and are digits (a match, not a fullmatch, so longer strings with a
13-digit prefix also pass). -/
def thirteenDigitsMatch (s : String) : Bool :=
  (s.toList.take 13).length = 13 && (s.toList.take 13).all Char.isDigit

/-- Python `re.compile(r'\w\w').match(s)` succeeds: the first two characters exist
and are word characters. -/
def twoWordCharsMatch (s : String) : Bool :=
  (s.toList.take 2).length = 2 && (s.toList.take 2).all wordChar

/-- Whether a string's first character is `#` (the version-comment test of
`is_valid_entry`). -/
def headIsHash (s : String) : Bool :=
  match s.toList with
  | c :: _ => c = '#'
  | [] => false

/-- Python `Logparser.is_valid_entry(row, ind, folder)`: an empty row is invalid;
the line-0 version comment (first field starting with `#`) is skipped; a
row of length other than 4 is invalid; otherwise the row is valid iff the
timestamp matches 13 digits, the code matches two word characters and the
xpath is non-empty. -/
def is_valid_entry (row : List String) (ind : Nat) : Bool :=
  match row with
  | [] => false
  | f0 :: _ =>
    if headIsHash f0 && ind = 0 then false
    else if row.length ≠ 4 then false
    else
      thirteenDigitsMatch f0
        && twoWordCharsMatch ((row.get? 1).getD "")
        && ((row.get? 2).getD "") ≠ ""

/-- The numeric value of a digit list. -/
def digitsVal (cs : List Char) : Int :=
  cs.foldl (fun a c => a * 10 + ((c.toNat : Int) - 48)) 0

/-- Python `int(s)` on a plain decimal literal, optionally signed (the
whitespace and underscore liberties of `int` are never exercised by log
timestamps): `ValueError` as `none` when the string is not such a
literal. -/
def pyInt? (s : String) : Option Int :=
  match s.toList with
  | '-' :: rest =>
    if rest ≠ [] ∧ rest.all Char.isDigit then some (-(digitsVal rest)) else none
  | cs =>
    if cs ≠ [] ∧ cs.all Char.isDigit then some (digitsVal cs) else none

/-- Python `row[0] = int(row[0])` plus packaging of the four fields: `int(...)`
raises `ValueError` when the first field is not an integer literal.  Only
called on rows that passed `is_valid_entry`, hence on 4-field rows. -/
def rowOfFields (row : List String) : Except PyErr Row :=
  match row with
  | [f0, f1, f2, f3] =>
    match pyInt? f0 with
    | some t => .ok { time := t, code := f1, xpath := f2, value := f3 }
    | none => .error .valueError
  | _ => .error .indexError

/-- The loop body of `Logparser.capture_events`: skip invalid rows, convert
the timestamp, feed the row to the helper, accumulate emitted events, and
call `ParserHelper.finalize` at end of stream.  Any raised error propagates
(only `csv.Error` is caught upstream in `Logparser.__init__`). -/
def capture_go (h : ParserHelper) (i : Nat) (raws : List (List String))
    (acc : List Event) : Except PyErr (List Event) :=
  match raws with
  | [] =>
    match h.finalize with
    | (_, .error e) => .error e
    | (_, .ok evs) => .ok (acc ++ evs)
  | r :: rest =>
    if is_valid_entry r i then
      match rowOfFields r with
      | .error e => .error e
      | .ok row =>
        match h.parse_next_row row (i : Int) with
        | (h', .ok evs) => capture_go h' (i + 1) rest (acc ++ evs)
        | (_, .error e) => .error e
    else capture_go h (i + 1) rest acc

/-- Python `Logparser.capture_events(reader)` over an in-memory list of raw rows,
with the thresholds the `Logparser` was constructed with. -/
def capture_events (event_threshold relation_threshold : Int)
    (raws : List (List String)) : Except PyErr (List Event) :=
  capture_go (ParserHelper.init event_threshold relation_threshold) 0 raws []

end Logparser

namespace Instance

/-- Python `Instance.TWO_HR`: two hours in milliseconds. -/
def TWO_HR : Int := 7200000

/-- Python `Instance.THIRTY_MIN`: thirty minutes in milliseconds. -/
def THIRTY_MIN : Int := 1800000

/-- Python `Instance.TEN_SEC`: ten seconds in milliseconds. -/
def TEN_SEC : Int := 10000

/-- Python `Instance.ONE_SWIPE`: the length of time for one swipe. -/
def ONE_SWIPE : Int := 400

/-- Python `Instance.initialize_constants`: the short-break threshold used by the
aggregation. -/
def short_break_threshold : Int := THIRTY_MIN

/-- Python `Instance.initialize_constants`: the event threshold the analysis passes
to `Logparser`. -/
def event_threshold : Int := ONE_SWIPE

/-- Python `Instance.initialize_constants`: the relation threshold the analysis
passes to `Logparser`. -/
def relation_threshold : Int := TEN_SEC

end Instance

/-- Look up a key in an association list (a Python dict). -/
def alistFind (m : List (String × Int)) (k : String) : Option Int :=
  (m.find? (fun p => p.1 = k)).map (fun p => p.2)

/-- The Python pattern `if k in d: d[k] += amt else: d[k] = amt`. -/
def alistBump (m : List (String × Int)) (k : String) (amt : Int) :
    List (String × Int) :=
  if m.any (fun p => p.1 = k) then
    m.map (fun p => if p.1 = k then (p.1, p.2 + amt) else p)
  else m ++ [(k, amt)]

/-- Look up a key in a string-valued association list. -/
def alistFindS (m : List (String × String)) (k : String) : Option String :=
  (m.find? (fun p => p.1 = k)).map (fun p => p.2)

/-- Python `d[k] = v` on a string-valued dict. -/
def alistSetS (m : List (String × String)) (k v : String) :
    List (String × String) :=
  if m.any (fun p => p.1 = k) then
    m.map (fun p => if p.1 = k then (p.1, v) else p)
  else m ++ [(k, v)]

/-- Python `s.add(x)` on a Python set, modelled as a duplicate-free list. -/
def setAdd (s : List String) (x : String) : List String :=
  if x ∈ s then s else s ++ [x]

/-- The aggregation state of one `Instance` analysis: the metric fields
initialized in `Instance.__init__` together with the rolling
`LogParseState` (`last_resume`, `last_pause`, `last_enter`, `prev_event`)
and the tracked prompt list the instance was created with. -/
structure AggState where
  prompts : List String
  resumed : Int
  paused : Int
  short_break : Int
  save_count : Int
  enter_count : Int
  relation_self_destruct : Int
  prompt_resumed : List (String × Int)
  prompt_short_break : List (String × Int)
  prompt_cc : List (String × Int)
  prompt_visits : List (String × Int)
  prompt_changes : List (String × Int)
  prompt_value : List (String × String)
  uncaptured_prompts : List String
  last_resume : Option Event
  last_pause : Option Event
  last_enter : Option Event
  prev_event : Option Event
deriving Repr, DecidableEq

namespace Instance

/-- The aggregation state at the start of `Instance.summarize_log`, for a
given tracked prompt list. -/
def initState (tracked : List String) : AggState :=
  { prompts := tracked
    resumed := 0
    paused := 0
    short_break := 0
    save_count := 0
    enter_count := 0
    relation_self_destruct := 0
    prompt_resumed := []
    prompt_short_break := []
    prompt_cc := []
    prompt_visits := []
    prompt_changes := []
    prompt_value := []
    uncaptured_prompts := []
    last_resume := none
    last_pause := none
    last_enter := none
    prev_event := none }

/-- Python `Instance.update_resumed(resumed_diff)`: add only positive amounts. -/
def update_resumed (st : AggState) (resumed_diff : Int) : AggState :=
  if resumed_diff > 0 then { st with resumed := st.resumed + resumed_diff }
  else st

/-- Python `Instance.update_paused(paused_diff)`: add positive amounts to `paused`,
and to `short_break` as well when below the short-break threshold. -/
def update_paused (st : AggState) (paused_diff : Int) : AggState :=
  let st :=
    if paused_diff > 0 then { st with paused := st.paused + paused_diff }
    else st
  if 0 < paused_diff ∧ paused_diff < short_break_threshold then
    { st with short_break := st.short_break + paused_diff }
  else st

/-- Python `Instance.update_screen_short_break_time(prompt, time_diff)`. -/
def update_screen_short_break_time (st : AggState) (prompt : String)
    (time_diff : Int) : AggState :=
  { st with prompt_short_break := alistBump st.prompt_short_break prompt time_diff }

/-- Python `Instance.screen_short_break_time(pause, resume)`: when both events have
stage QUESTION and the (positive, sub-threshold) time difference qualifies,
add it to every prompt common to both events' prompt sets. -/
def screen_short_break_time (st : AggState) (pause resume : Event) : AggState :=
  if pause.stage = Event.QUESTION ∧ resume.stage = Event.QUESTION then
    let time_diff := Event.sub resume pause
    if 0 < time_diff ∧ time_diff < short_break_threshold then
      let common := (pause.prompts.filter (fun p => resume.prompts.contains p)).dedup
      common.foldl (fun acc p => update_screen_short_break_time acc p time_diff) st
    else st
  else st

/-- Python `Instance.check_event_order(event, state)`: warn when the previous event
compares as after the new one (`prev_event > event`, i.e.
`prev_event.min_time > event.max_time`). -/
def check_event_order (st : AggState) (e : Event) : List String :=
  match st.prev_event with
  | some pe => if Event.gtE pe e then ["Out of order events"] else []
  | none => []

/-- Python `Instance.track_resume_pause(event, state)`: the resume/pause session
bookkeeping, returning the new state and the warnings logged. -/
def track_resume_pause (st : AggState) (e : Event) : AggState × List String :=
  if e.code = "oR" then
    match st.last_pause, st.last_resume with
    | none, none => ({ st with last_resume := some e }, [])
    | some lp, none =>
      let st := screen_short_break_time st lp e
      let paused_diff := Event.sub e lp
      let st := update_paused st paused_diff
      ({ st with last_resume := some e, last_pause := none }, [])
    | none, some _ => (st, ["Still oR, oR without oP"])
    | some _, some _ => (st, [])
  else if e.code = "oP" then
    match st.last_pause, st.last_resume with
    | none, none => (st, ["Before first oR, found oP"])
    | none, some lr =>
      let resumed_diff := Event.sub e lr
      let st := update_resumed st resumed_diff
      let st := { st with last_resume := none, last_pause := some e }
      if resumed_diff > TWO_HR then (st, ["Large resumed time"]) else (st, [])
    | some _, none => (st, ["oP, oP without oR"])
    | some _, some _ => (st, [])
  else (st, [])

/-- Python `Instance.update_screen_time(prompt, time_diff)`. -/
def update_screen_time (st : AggState) (prompt : String) (time_diff : Int) :
    AggState :=
  { st with prompt_resumed := alistBump st.prompt_resumed prompt time_diff }

/-- Python `Instance.screen_time(enter_event, leave_event)`: with both events
present and the leave event at stage QUESTION, add the time difference to
every prompt common to both events, warning when the prompt sets are
disjoint. -/
def screen_time (st : AggState) (enter : Option Event) (leave : Event) :
    AggState × List String :=
  match enter with
  | none => (st, [])
  | some en =>
    if leave.stage = Event.QUESTION then
      let time_diff := Event.sub leave en
      let common := (en.prompts.filter (fun p => leave.prompts.contains p)).dedup
      let warns := if common = [] then ["Unmatched enter/exit event"] else []
      (common.foldl (fun acc p => update_screen_time acc p time_diff) st, warns)
    else (st, [])

/-- Python `Instance.track_question_resumed_time(event, state)`: remember a
QUESTION-stage `oR`/`EP` event as the open enter event; on a
QUESTION-stage `oP`/`LP` event charge the screen time and clear it. -/
def track_question_resumed_time (st : AggState) (e : Event) :
    AggState × List String :=
  if e.code = "oR" ∨ e.code = "EP" then
    if e.stage = Event.QUESTION then ({ st with last_enter := some e }, [])
    else (st, [])
  else if e.code = "oP" ∨ e.code = "LP" then
    if e.stage = Event.QUESTION then
      let r := screen_time st st.last_enter e
      ({ r.1 with last_enter := none }, r.2)
    else (st, [])
  else (st, [])

/-- Python `Instance.update_screen_visits(prompt)`: count the visit and record the
prompt as uncaptured when it is not in the tracked prompt list. -/
def update_screen_visits (st : AggState) (prompt : String) : AggState :=
  let st := { st with prompt_visits := alistBump st.prompt_visits prompt 1 }
  if prompt ∈ st.prompts then st
  else { st with uncaptured_prompts := setAdd st.uncaptured_prompts prompt }

/-- Python `Instance.screen_visit(enter_event)`: one visit per prompt yielded by
`Event.prompts()` (duplicates included, as the generator is iterated
directly). -/
def screen_visit (st : AggState) (e : Event) : AggState :=
  e.prompts.foldl update_screen_visits st

/-- Python `Instance.update_screen_cc(prompt)`. -/
def update_screen_cc (st : AggState) (prompt : String) : AggState :=
  { st with prompt_cc := alistBump st.prompt_cc prompt 1 }

/-- Python `Instance.screen_cc(cc_event)`. -/
def screen_cc (st : AggState) (e : Event) : AggState :=
  e.prompts.foldl update_screen_cc st

/-- Python `Instance.track_countables(event)`: visits and `enter_count` for
QUESTION-stage `EP` events, then the `CC`/`SF`/`rS` chain. -/
def track_countables (st : AggState) (e : Event) : AggState :=
  let st :=
    if e.code = "EP" ∧ e.stage = Event.QUESTION then
      let st := screen_visit st e
      { st with enter_count := st.enter_count + 1 }
    else st
  if e.code = "CC" then
    if e.stage = Event.QUESTION then screen_cc st e else st
  else if e.code = "SF" then { st with save_count := st.save_count + 1 }
  else if e.code = "rS" then
    { st with relation_self_destruct := st.relation_self_destruct + 1 }
  else st

/-- The loop body of `Instance.track_prompt_value(event)` for one row and
its positionally paired prompt name. -/
def track_prompt_value_row (st : AggState) (r : Row) : AggState :=
  let prompt := Event.promptOf r.xpath
  match alistFindS st.prompt_value r.xpath with
  | none =>
    let st := { st with prompt_value := alistSetS st.prompt_value r.xpath r.value }
    if r.value ≠ "" then
      { st with prompt_changes := alistBump st.prompt_changes prompt 1 }
    else st
  | some old =>
    if old ≠ r.value then
      let st := { st with prompt_value := alistSetS st.prompt_value r.xpath r.value }
      { st with prompt_changes := alistBump st.prompt_changes prompt 1 }
    else st

/-- Python `Instance.track_prompt_value(event)`: `zip(event, event.prompts())`
pairs each row with the prompt extracted from its own xpath. -/
def track_prompt_value (st : AggState) (e : Event) : AggState :=
  e.rows.foldl track_prompt_value_row st

/-- One iteration of the event loop of `Instance.summarize_log`:
`check_event_order`, `track_resume_pause`, `track_question_resumed_time`,
`track_countables`, `track_prompt_value`, in that order, collecting all
warnings logged along the way. -/
def aggStep (st : AggState) (e : Event) : AggState × List String :=
  let w1 := check_event_order st e
  let r2 := track_resume_pause st e
  let r3 := track_question_resumed_time r2.1 e
  let st4 := track_countables r3.1 e
  let st5 := track_prompt_value st4 e
  (st5, w1 ++ r2.2 ++ r3.2)

/-- The whole event loop of `Instance.summarize_log` over a list of events,
discarding warnings. -/
def aggRun (tracked : List String) (events : List Event) : AggState :=
  events.foldl (fun st e => (aggStep st e).1) (initState tracked)

end Instance

/-- A list of timestamps is non-decreasing in order (the property the spec
ascribes to the `increasing` flag). -/
def timesNonDecreasing : List Int → Bool
  | [] => true
  | [_] => true
  | a :: b :: rest => decide (a ≤ b) && timesNonDecreasing (b :: rest)

/-- Extract the event from an `Except`, with an explicit fallback for the
error case (used only to name concrete events built through `add_row`,
whose error branch is not taken on these inputs). -/
def exceptEvent (x : Except PyErr Event) (d : Event) : Event :=
  match x with
  | .ok e => e
  | .error _ => d

/-- A parser state with an open one-row `EP` run, used to witness
finalization behaviour. -/
def finalizeDemoState : ParserHelper :=
  { ParserHelper.init 0 60000 with
    cur_event := some (Event.ofRow ⟨5, "EP", "x", ""⟩ 0) }

/-- The segmenter state after the three-row double-resume stream
`[(0,oR),(500,EP),(1000,oR)]` of claim C3, with event threshold 1000. -/
def doubleResumeTrace : ParserHelper × Except PyErr (List Event) :=
  let s1 := (ParserHelper.init 1000 60000).parse_next_row ⟨0, "oR", "x", ""⟩ 0
  let s2 := s1.1.parse_next_row ⟨500, "EP", "x", ""⟩ 1
  s2.1.parse_next_row ⟨1000, "oR", "x", ""⟩ 2

/-- The one-row event opening the C7 run at t=0. -/
def increasingDemoFirst : Event := Event.ofRow ⟨0, "EP", "a", ""⟩ 0

/-- The C7 run after absorbing the row at t=5. -/
def increasingDemoTwo : Event :=
  exceptEvent (increasingDemoFirst.add_row ⟨5, "EP", "b", ""⟩) increasingDemoFirst

/-- The C7 run after absorbing the rows at t=5 and then t=3. -/
def increasingDemoThree : Event :=
  exceptEvent (increasingDemoTwo.add_row ⟨3, "EP", "c", ""⟩) increasingDemoFirst

/-- A two-row run with timestamps `[5, 3]`: the flag drops to `false`. -/
def increasingDemoDrop : Event :=
  exceptEvent ((Event.ofRow ⟨5, "EP", "a", ""⟩ 0).add_row ⟨3, "EP", "b", ""⟩)
    (Event.ofRow ⟨5, "EP", "a", ""⟩ 0)

/-- An `AggState` value whose `stage` field reads `ERROR`, as posited by
claim C5.  No constructor of the program produces such an event —
`get_stage` only returns `RELATION`, `BOOKEND` or `QUESTION` — so the value
is written directly. -/
def errorStageEvent : Event :=
  { rows := [⟨0, "ZZ", "x", ""⟩], line2 := 0, code := "ZZ",
    start_time := 0, max_time := 0, min_time := 0,
    increasing := true, stage := "ERROR" }

/-- The pause event of the C6 counterexample: an `oP` run opened at t=200
that absorbed a row at t=100, so `min_time = 100`, `max_time = 200`. -/
def pausedDiffPause : Event :=
  exceptEvent ((Event.ofRow ⟨200, "oP", "x", ""⟩ 0).add_row ⟨100, "oP", "x", ""⟩)
    (Event.ofRow ⟨200, "oP", "x", ""⟩ 0)

/-- The resume event of the C6 counterexample: an `oR` run opened at t=300
that absorbed a row at t=400, so `min_time = 300`, `max_time = 400`. -/
def pausedDiffResume : Event :=
  exceptEvent ((Event.ofRow ⟨300, "oR", "x", ""⟩ 0).add_row ⟨400, "oR", "x", ""⟩)
    (Event.ofRow ⟨300, "oR", "x", ""⟩ 0)

/-- A `rV` relation run opened at t=0, split by the relation threshold when
the same-code row at t=70001 arrives (claim C8's concrete input). -/
def repeatableSplitState : ParserHelper :=
  { ParserHelper.init 400 60000 with
    cur_event := some (Event.ofRow ⟨0, "rV", "x", ""⟩ 0) }

/-- The `EP` QUESTION event on the untracked prompt `b` used against claim
C9. -/
def untrackedVisitEvent : Event := Event.ofRow ⟨1000, "EP", "b[1]", ""⟩ 0

/-- The parser states reachable from a freshly initialized `ParserHelper`
by feeding any sequence of rows through `parse_next_row` (the state a step
returns is the one Python's in-place mutation leaves behind, whether or not
the step raised). -/
inductive ReachableHelper : ParserHelper → Prop where
  | init (et rt : Int) : ReachableHelper (ParserHelper.init et rt)
  | step {h : ParserHelper} (row : Row) (line : Int) :
      ReachableHelper h → ReachableHelper ((h.parse_next_row row line).1)

/-- The C10 invariant: a recorded last resume implies a recorded previous
non-relation event. -/
def resumeInv (h : ParserHelper) : Prop :=
  h.last_resume.isSome → h.prev_non_relation.isSome

/-- The reachable state after feeding `(0,oR)` then `(5000,EP)` to a fresh
helper with thresholds 1000/60000: the `EP` row closes the `oR` run, so
`last_resume` is set. -/
def reachDemoState : ParserHelper :=
  (((ParserHelper.init 1000 60000).parse_next_row ⟨0, "oR", "x", ""⟩ 0).1.parse_next_row
    ⟨5000, "EP", "x", ""⟩ 1).1

/-- The aggregation state of the C6 witness: an open pause spanning
time [100, 200]. -/
def pausedDiffState : AggState :=
  { Instance.initState [] with last_pause := some pausedDiffPause }

/-- CLAIM C1. For every parser state with an open run — hence at the end of
every non-empty valid row stream — `ParserHelper.finalize` raises
`TypeError` (the source evaluates `len(self.cur_event)` but `Event` defines
no `__len__`), so no closing sequence is returned; concretely,
`capture_events` on a single valid row propagates the `TypeError` instead
of returning the accumulated event list. -/
theorem finalize_always_raises :
    (∀ (h : ParserHelper) (cur : Event), h.cur_event = some cur →
      (h.finalize).2 = Except.error PyErr.typeError) ∧
    Logparser.capture_events 1000 60000 [["1000000000000", "oR", "x", ""]] =
      Except.error PyErr.typeError := by
  constructor
  · intro h cur hcur
    unfold ParserHelper.finalize
    rw [hcur]
    rfl
  · rfl

/-- Witness for C1: the general finalization statement applied to a
concrete parser state with an open run. -/
theorem finalize_always_raises_witness :
    (finalizeDemoState.finalize).2 = Except.error PyErr.typeError :=
  finalize_always_raises.1 finalizeDemoState (Event.ofRow ⟨5, "EP", "x", ""⟩ 0) rfl

/-- CLAIM C2. Feeding a second same-code row to an open run via
`Event.add_row` leaves the event's `rows` at the single initial row — the
added row appears in no event's row list, so the concatenation of emitted
events' rows loses every row after the first of each run.  Shown both
directly on `Event.add_row` and through `ParserHelper.parse_next_row`. -/
theorem add_row_drops_rows :
    ((Event.ofRow ⟨5, "EP", "a", ""⟩ 0).add_row ⟨6, "EP", "b", ""⟩).map Event.rows =
      Except.ok [⟨5, "EP", "a", ""⟩] ∧
    ((((ParserHelper.init 1000 60000).parse_next_row ⟨5, "EP", "a", ""⟩ 0).1.parse_next_row
        ⟨6, "EP", "b", ""⟩ 1).1.cur_event).map Event.rows =
      some [⟨5, "EP", "a", ""⟩] := by
  constructor <;> rfl

/-- CLAIM C3. On the stream `[(0,oR),(500,EP),(1000,oR)]` with event
threshold 1000, the third row closes the EP run and `check_resume` emits a
synthetic pause: a copy of the EP event with code `oP` and all time fields
`500 + 1 = 501`, emitted immediately after the EP event; the second resume
only sits in `cur_event`, and the subsequent `finalize` raises `TypeError`
(no `__len__` on `Event`), so the completed sequence containing the second
resume after the pause is never returned. -/
theorem double_resume_synthetic_pause_crash :
    doubleResumeTrace.2 =
      Except.ok
        [{ rows := [⟨500, "EP", "x", ""⟩], line2 := 2, code := "EP",
           start_time := 500, max_time := 500, min_time := 500,
           increasing := true, stage := "QUESTION" },
         { rows := [⟨501, "oP", "x", ""⟩], line2 := 5, code := "oP",
           start_time := 501, max_time := 501, min_time := 501,
           increasing := true, stage := "QUESTION" }] ∧
    doubleResumeTrace.1.cur_event = some (Event.ofRow ⟨1000, "oR", "x", ""⟩ 4) ∧
    (doubleResumeTrace.1.finalize).2 = Except.error PyErr.typeError := by
  refine ⟨rfl, rfl, rfl⟩

/-- CLAIM C4 (counterexample). The claim's defaults of 400 ms and 60,000 ms
do not hold at both engine entry points: the `Logparser` constructor
defaults the event threshold to 0 ms, and the `Instance` analysis passes a
relation threshold of 10,000 ms. -/
theorem default_thresholds_counterexample :
    Logparser.default_event_threshold ≠ 400 ∧
    Instance.relation_threshold ≠ 60000 := by
  constructor <;> decide

/-- CLAIM C4 (amended). The `Logparser` constructor defaults are 0 ms
(event) and 60,000 ms (relation); the `Instance` analysis passes 400 ms
(`ONE_SWIPE`) and 10,000 ms (`TEN_SEC`), with a 1,800,000 ms short-break
threshold and a 7,200,000 ms large-resume threshold. -/
theorem default_thresholds_actual :
    Logparser.default_event_threshold = 0 ∧
    Logparser.default_relation_threshold = 60000 ∧
    Instance.event_threshold = 400 ∧
    Instance.relation_threshold = 10000 ∧
    Instance.short_break_threshold = 1800000 ∧
    Instance.TWO_HR = 7200000 := by
  refine ⟨rfl, rfl, rfl, rfl, rfl, rfl⟩

/-- CLAIM C7. On the run with timestamps `[0, 5, 3]` (same code), the
program's `increasing` flag remains `true` although the fed timestamps are
not non-decreasing: because `add_row` never appends to `rows`,
`last_time()` keeps answering the first row's timestamp, so only a drop
below the first timestamp clears the flag.  The final conjuncts show the
two-row run `[5, 3]`, where the flag goes `false` although the stored
`rows` list (still just the single first row) is trivially
non-decreasing. -/
theorem increasing_flag_bug :
    timesNonDecreasing [0, 5, 3] = false ∧
    increasingDemoThree.increasing = true ∧
    increasingDemoDrop.increasing = false ∧
    increasingDemoDrop.rows = [⟨5, "EP", "a", ""⟩] ∧
    timesNonDecreasing (increasingDemoDrop.rows.map Row.time) = true := by
  refine ⟨rfl, rfl, rfl, rfl, rfl⟩

/-- CLAIM C5 (counterexample). Processing an event whose `stage` field
reads `ERROR` through one full iteration of the aggregation loop emits no
"unknown event" warning (nor any other): `summarize_log` has no stage
check at all, contradicting the claimed Aggregator behaviour. -/
theorem error_stage_counterexample :
    errorStageEvent.stage = "ERROR" ∧
    (Instance.aggStep (Instance.initState []) errorStageEvent).2 = [] := by
  constructor <;> rfl

/-- CLAIM C6 (counterexample). With an open pause spanning [100, 200] and
an arriving resume spanning [300, 400], the code computes `paused_diff`
with `Event.__sub__`, i.e. `resume.max_time - pause.min_time = 300`, and
adds 300 to `paused_ms` — not the claimed
`resume.min_time - pause.max_time = 100`. -/
theorem paused_diff_counterexample :
    (Instance.aggStep
        { Instance.initState [] with last_pause := some pausedDiffPause }
        pausedDiffResume).1.paused = 300 ∧
    pausedDiffResume.min_time - pausedDiffPause.max_time = 100 ∧
    (300 : Int) ≠ 100 := by
  refine ⟨rfl, rfl, by decide⟩

/-- CLAIM C8 (counterexample). `rV` is in the claim's exempt set, so the
claim says a time-threshold split of an `rV` run without code change emits
no warning and proceeds; instead the split calls the undefined
`Event.is_repeatable` and raises `AttributeError`, so neither the
warning decision nor the split result is ever produced (and `rV` is not
even in the repeatable set the source records). -/
theorem repeatable_warning_counterexample :
    (repeatableSplitState.parse_next_row ⟨70001, "rV", "x", ""⟩ 1).2 =
      Except.error (PyErr.attributeError "Event.is_repeatable") ∧
    Event.multiples.contains "rV" = false := by
  constructor <;> rfl

/-- CLAIM C9 (counterexample). With tracked prompt list `["a"]`, processing
a QUESTION-stage `EP` event on prompt `b` puts the key `b` into
`prompt_visits` (and `prompt_value` gains the xpath key) even though `b` is
not tracked: the per-prompt maps' key sets are not contained in the
tracked prompt list. -/
theorem per_prompt_keys_counterexample :
    (Instance.aggStep (Instance.initState ["a"]) untrackedVisitEvent).1.prompt_visits =
      [("b", 1)] ∧
    ¬ ("b" ∈ ["a"]) := by
  constructor
  · rfl
  · decide

/-- CLAIM C8 (amended). The repeatable code set the source records is
`Event.multiples = ["rS", "SF", "CC"]` (not the claimed set); and because
`Event.is_repeatable` is not defined at all, every time-threshold split of
a run without a code change raises `AttributeError` inside
`check_repeatable`, so the "event split on time threshold" warning is
never reached — for no code, inside or outside any set. -/
theorem repeatable_set_actual :
    Event.multiples = ["rS", "SF", "CC"] ∧
    ∀ (h : ParserHelper) (cur : Event) (row : Row) (line : Int),
      h.cur_event = some cur → cur.code = row.code →
      h.is_time_split cur row.time = true →
      (h.parse_next_row row line).2 =
        Except.error (PyErr.attributeError "Event.is_repeatable") := by
  refine ⟨rfl, ?_⟩
  intro h cur row line hcur hcode hts
  unfold ParserHelper.parse_next_row
  rw [hcur]
  simp only [ParserHelper.is_code_change, hcode, hts, ParserHelper.check_repeatable]
  simp

/-- Witness for C8: the amended statement applied at the concrete `rV` run
split by the 60,000 ms relation threshold. -/
theorem repeatable_set_actual_witness :
    (repeatableSplitState.parse_next_row ⟨70001, "rV", "x", ""⟩ 1).2 =
      Except.error (PyErr.attributeError "Event.is_repeatable") :=
  repeatable_set_actual.2 repeatableSplitState (Event.ofRow ⟨0, "rV", "x", ""⟩ 0)
    ⟨70001, "rV", "x", ""⟩ 1 rfl rfl rfl

/-- Python `update_previous` preserves the C10 invariant: when it records a
resume (`oR`), `oR` is not a relation code, so the same call records the
event as the previous non-relation event too. -/
theorem update_previous_resumeInv (h : ParserHelper) (cur : Event) :
    resumeInv h → resumeInv (h.update_previous cur) := by
  intro hinv
  unfold resumeInv ParserHelper.update_previous
  dsimp only
  split_ifs with h1 h2 h3 h4 h5
  · exfalso; rw [h2] at h1; exact absurd h1 (by decide)
  · simp
  · exact hinv
  · simp
  · simp
  · simp

/-- Every error `Event.add_row` can raise is the `LogparserException` for a
code mismatch. -/
theorem add_row_error (e : Event) (row : Row) (x : PyErr)
    (hx : e.add_row row = Except.error x) : x = PyErr.logparserError := by
  unfold Event.add_row at hx
  split at hx
  · injection hx with hh; exact hh.symm
  · exact Except.noConfusion hx

/-- Folding rows through `add_row` can only raise the code-mismatch
error. -/
theorem foldlM_add_row_error (l : List Row) (acc : Event) (x : PyErr)
    (hx : l.foldlM (fun a r => a.add_row r) acc = Except.error x) :
    x = PyErr.logparserError := by
  induction l generalizing acc with
  | nil => exact Except.noConfusion hx
  | cons r t ih =>
    rw [List.foldlM_cons] at hx
    cases hr : acc.add_row r with
    | error e' =>
      rw [hr] at hx
      change Except.error e' = Except.error x at hx
      injection hx with hh
      exact hh ▸ add_row_error acc r e' hr
    | ok a =>
      rw [hr] at hx
      change List.foldlM (fun a r => a.add_row r) a t = Except.error x at hx
      exact ih a hx

/-- Every error `Event.copy` can raise is an `IndexError` (empty row list)
or the code-mismatch error from `add_row`. -/
theorem copy_error (e : Event) (x : PyErr) (hx : e.copy = Except.error x) :
    x = PyErr.indexError ∨ x = PyErr.logparserError := by
  unfold Event.copy at hx
  cases hrows : e.rows with
  | nil =>
    rw [hrows] at hx
    change Except.error PyErr.indexError = Except.error x at hx
    injection hx with hh
    exact Or.inl hh.symm
  | cons first rest =>
    rw [hrows] at hx
    change List.foldlM (fun a r => a.add_row r) (Event.ofRow first e.line2) rest =
      Except.error x at hx
    exact Or.inr (foldlM_add_row_error rest _ x hx)

/-- Every error `Event.create_pause_next` can raise comes from `copy`. -/
theorem create_pause_next_error (e : Event) (x : PyErr)
    (hx : e.create_pause_next = Except.error x) :
    x = PyErr.indexError ∨ x = PyErr.logparserError := by
  unfold Event.create_pause_next at hx
  cases hc : e.copy with
  | error e' =>
    rw [hc] at hx
    change Except.error e' = Except.error x at hx
    injection hx with hh
    exact hh ▸ copy_error e e' hc
  | ok c =>
    rw [hc] at hx
    exact Except.noConfusion hx

/-- The only error `check_repeatable` can raise is the missing
`is_repeatable` attribute. -/
theorem check_repeatable_error (ts cc : Bool) (cur : Event) (e : PyErr)
    (hx : ParserHelper.check_repeatable ts cc cur = Except.error e) :
    e = PyErr.attributeError "Event.is_repeatable" := by
  unfold ParserHelper.check_repeatable at hx
  split at hx
  · injection hx with hh; exact hh.symm
  · exact Except.noConfusion hx

/-- The only error `check_increasing` can raise is the `TypeError` from
`len` on an `Event`. -/
theorem check_increasing_error (cur : Event) (e : PyErr)
    (hx : ParserHelper.check_increasing cur = Except.error e) :
    e = PyErr.typeError := by
  unfold ParserHelper.check_increasing at hx
  split at hx
  · exact Except.noConfusion hx
  · change Except.error PyErr.typeError = Except.error e at hx
    injection hx with hh
    exact hh.symm

/-- Any error `check_resume` raises is either the `NoneType` attribute
error — in which case `last_resume` was set while `prev_non_relation` was
absent — or an error propagated from `create_pause_next`. -/
theorem check_resume_error (h : ParserHelper) (code : String) (e : PyErr)
    (hx : h.check_resume code = Except.error e) :
    (e = PyErr.attributeError "NoneType.create_pause_next" ∧
      h.last_resume.isSome ∧ h.prev_non_relation = none) ∨
    e = PyErr.indexError ∨ e = PyErr.logparserError := by
  unfold ParserHelper.check_resume at hx
  split at hx
  · rename_i hcond
    cases hp : h.prev_non_relation with
    | none =>
      rw [hp] at hx
      change Except.error (PyErr.attributeError "NoneType.create_pause_next") =
        Except.error e at hx
      injection hx with hh
      exact Or.inl ⟨hh.symm, hcond.2, rfl⟩
    | some p =>
      rw [hp] at hx
      change Except.map some p.create_pause_next = Except.error e at hx
      cases hcp : p.create_pause_next with
      | error e' =>
        rw [hcp] at hx
        change Except.error e' = Except.error e at hx
        injection hx with hh
        exact Or.inr (hh ▸ create_pause_next_error p e' hcp)
      | ok pe =>
        rw [hcp] at hx
        exact Except.noConfusion hx
  · exact Except.noConfusion hx

/-- A parse step preserves the C10 invariant: the only fields involved are
written by `update_previous`, which preserves it. -/
theorem parse_next_row_resumeInv (h : ParserHelper) (row : Row) (line : Int) :
    resumeInv h → resumeInv ((h.parse_next_row row line).1) := by
  intro hinv
  cases hc : h.cur_event with
  | none =>
    simp only [ParserHelper.parse_next_row, hc]
    simpa [resumeInv] using hinv
  | some cur =>
    have h1inv := update_previous_resumeInv h cur hinv
    simp only [ParserHelper.parse_next_row, hc]
    split
    · split
      · simpa [resumeInv] using h1inv
      · split
        · simpa [resumeInv] using h1inv
        · split
          · simpa [resumeInv] using h1inv
          · simpa [resumeInv] using h1inv
    · split
      · simpa [resumeInv] using hinv
      · simpa [resumeInv] using hinv

/-- Under the C10 invariant, a parse step never fails by calling
`create_pause_next` on an absent previous non-relation event. -/
theorem parse_next_row_no_none_pause (h : ParserHelper) (row : Row) (line : Int)
    (hinv : resumeInv h) :
    (h.parse_next_row row line).2 ≠
      Except.error (PyErr.attributeError "NoneType.create_pause_next") := by
  have h1inv := fun cur => update_previous_resumeInv h cur hinv
  cases hc : h.cur_event with
  | none => simp [ParserHelper.parse_next_row, hc]
  | some cur =>
    simp only [ParserHelper.parse_next_row, hc]
    split
    · split
      · rename_i e heq
        have he := check_repeatable_error _ _ _ e heq
        simp [he]
      · split
        · rename_i e heq
          have he := check_increasing_error _ e heq
          simp [he]
        · split
          · rename_i e heq
            rcases check_resume_error _ _ e heq with ⟨he, hsome, hnone⟩ | he | he
            · exact absurd (h1inv cur hsome) (by simp [hnone])
            · simp [he]
            · simp [he]
          · simp
    · split
      · rename_i e heq
        have he := add_row_error _ _ e heq
        simp [he]
      · simp

/-- CLAIM C10. In every reachable `ParserHelper` state, a recorded
`last_resume` implies a recorded `prev_non_relation`; consequently, no
parse step from a reachable state ever raises the `AttributeError` that
calling `create_pause_next` on an absent previous non-relation event would
produce — the double-resume repair always builds its synthetic pause from
an existing event. -/
theorem last_resume_implies_prev_non_relation :
    ∀ (h : ParserHelper), ReachableHelper h →
      (h.last_resume.isSome → h.prev_non_relation.isSome) ∧
      ∀ (row : Row) (line : Int),
        (h.parse_next_row row line).2 ≠
          Except.error (PyErr.attributeError "NoneType.create_pause_next") := by
  intro h hr
  have hinv : resumeInv h := by
    induction hr with
    | init et rt => intro hsome; simp [ParserHelper.init] at hsome
    | step row line _ ih => exact parse_next_row_resumeInv _ row line ih
  exact ⟨hinv, fun row line => parse_next_row_no_none_pause h row line hinv⟩

/-- Witness for C10: the invariant theorem applied to the concrete
reachable state `reachDemoState`, whose `last_resume` is set. -/
theorem last_resume_implies_prev_non_relation_witness :
    reachDemoState.last_resume.isSome ∧
    reachDemoState.prev_non_relation.isSome ∧
    (reachDemoState.parse_next_row ⟨9000, "oR", "x", ""⟩ 2).2 ≠
      Except.error (PyErr.attributeError "NoneType.create_pause_next") := by
  have hreach : ReachableHelper reachDemoState :=
    ReachableHelper.step ⟨5000, "EP", "x", ""⟩ 1
      (ReachableHelper.step ⟨0, "oR", "x", ""⟩ 0 (ReachableHelper.init 1000 60000))
  refine ⟨rfl, ?_, ?_⟩
  · exact (last_resume_implies_prev_non_relation reachDemoState hreach).1 rfl
  · exact (last_resume_implies_prev_non_relation reachDemoState hreach).2 ⟨9000, "oR", "x", ""⟩ 2

/-- Folding a list through a state-updating function preserves any
property each single update preserves. -/
theorem aggFoldPreserve {α : Type} (P : AggState → Prop)
    (f : AggState → α → AggState) (hf : ∀ s a, P s → P (f s a)) :
    ∀ (l : List α) (st : AggState), P st → P (l.foldl f st) := by
  intro l
  induction l with
  | nil => intro st hst; simpa using hst
  | cons a t ih =>
    intro st hst
    rw [List.foldl_cons]
    exact ih _ (hf _ _ hst)

/-- Python `update_screen_short_break_time` leaves every field but
`prompt_short_break` unchanged. -/
@[simp] theorem update_screen_short_break_time_fields (s : AggState)
    (p : String) (d : Int) :
    (Instance.update_screen_short_break_time s p d).paused = s.paused ∧
    (Instance.update_screen_short_break_time s p d).short_break = s.short_break ∧
    (Instance.update_screen_short_break_time s p d).prompts = s.prompts ∧
    (Instance.update_screen_short_break_time s p d).uncaptured_prompts =
      s.uncaptured_prompts :=
  ⟨rfl, rfl, rfl, rfl⟩

/-- Python `update_screen_time` leaves every field but `prompt_resumed`
unchanged. -/
@[simp] theorem update_screen_time_fields (s : AggState) (p : String) (d : Int) :
    (Instance.update_screen_time s p d).paused = s.paused ∧
    (Instance.update_screen_time s p d).short_break = s.short_break ∧
    (Instance.update_screen_time s p d).prompts = s.prompts ∧
    (Instance.update_screen_time s p d).uncaptured_prompts = s.uncaptured_prompts :=
  ⟨rfl, rfl, rfl, rfl⟩

/-- Python `update_screen_cc` leaves every field but `prompt_cc` unchanged. -/
@[simp] theorem update_screen_cc_fields (s : AggState) (p : String) :
    (Instance.update_screen_cc s p).paused = s.paused ∧
    (Instance.update_screen_cc s p).short_break = s.short_break ∧
    (Instance.update_screen_cc s p).prompts = s.prompts ∧
    (Instance.update_screen_cc s p).uncaptured_prompts = s.uncaptured_prompts :=
  ⟨rfl, rfl, rfl, rfl⟩

/-- Python `update_paused` touches only `paused` and `short_break`. -/
@[simp] theorem update_paused_fields (s : AggState) (d : Int) :
    (Instance.update_paused s d).prompts = s.prompts ∧
    (Instance.update_paused s d).uncaptured_prompts = s.uncaptured_prompts := by
  unfold Instance.update_paused
  dsimp only
  split_ifs <;> exact ⟨rfl, rfl⟩

/-- Python `update_resumed` touches only `resumed`. -/
@[simp] theorem update_resumed_fields (s : AggState) (d : Int) :
    (Instance.update_resumed s d).paused = s.paused ∧
    (Instance.update_resumed s d).short_break = s.short_break ∧
    (Instance.update_resumed s d).prompts = s.prompts ∧
    (Instance.update_resumed s d).uncaptured_prompts = s.uncaptured_prompts := by
  unfold Instance.update_resumed
  split_ifs <;> exact ⟨rfl, rfl, rfl, rfl⟩

/-- One row of `track_prompt_value` touches only `prompt_value` and
`prompt_changes`. -/
@[simp] theorem track_prompt_value_row_fields (s : AggState) (r : Row) :
    (Instance.track_prompt_value_row s r).paused = s.paused ∧
    (Instance.track_prompt_value_row s r).short_break = s.short_break ∧
    (Instance.track_prompt_value_row s r).prompts = s.prompts ∧
    (Instance.track_prompt_value_row s r).uncaptured_prompts =
      s.uncaptured_prompts := by
  unfold Instance.track_prompt_value_row
  dsimp only
  split <;> split_ifs <;> exact ⟨rfl, rfl, rfl, rfl⟩

/-- Python `update_screen_visits` touches only `prompt_visits` and (guardedly)
`uncaptured_prompts`. -/
@[simp] theorem update_screen_visits_fields (s : AggState) (p : String) :
    (Instance.update_screen_visits s p).paused = s.paused ∧
    (Instance.update_screen_visits s p).short_break = s.short_break ∧
    (Instance.update_screen_visits s p).prompts = s.prompts := by
  unfold Instance.update_screen_visits
  dsimp only
  split_ifs <;> exact ⟨rfl, rfl, rfl⟩

/-- Any member of `uncaptured_prompts` after `update_screen_visits` was
already there or is the new prompt, which the guard checked is not
tracked. -/
theorem update_screen_visits_uncaptured (s : AggState) (p q : String)
    (hq : q ∈ (Instance.update_screen_visits s p).uncaptured_prompts) :
    q ∈ s.uncaptured_prompts ∨ (q = p ∧ p ∉ s.prompts) := by
  unfold Instance.update_screen_visits at hq
  dsimp only at hq
  split_ifs at hq with hmem
  · exact Or.inl hq
  · unfold setAdd at hq
    split_ifs at hq with hadd
    · exact Or.inl hq
    · rcases List.mem_append.mp hq with hin | hone
      · exact Or.inl hin
      · exact Or.inr ⟨List.mem_singleton.mp hone, hmem⟩

/-- Python `screen_short_break_time` touches only `prompt_short_break`. -/
@[simp] theorem screen_short_break_time_fields (s : AggState) (pa re : Event) :
    (Instance.screen_short_break_time s pa re).paused = s.paused ∧
    (Instance.screen_short_break_time s pa re).short_break = s.short_break ∧
    (Instance.screen_short_break_time s pa re).prompts = s.prompts ∧
    (Instance.screen_short_break_time s pa re).uncaptured_prompts =
      s.uncaptured_prompts := by
  unfold Instance.screen_short_break_time
  dsimp only
  split_ifs
  · refine aggFoldPreserve
      (fun s' => s'.paused = s.paused ∧ s'.short_break = s.short_break ∧
        s'.prompts = s.prompts ∧ s'.uncaptured_prompts = s.uncaptured_prompts)
      _ ?_ _ s ?_
    · intro s' a hp
      exact hp
    · exact ⟨rfl, rfl, rfl, rfl⟩
  · exact ⟨rfl, rfl, rfl, rfl⟩
  · exact ⟨rfl, rfl, rfl, rfl⟩

/-- The state component of `screen_time` touches only `prompt_resumed`. -/
@[simp] theorem screen_time_fields (s : AggState) (en : Option Event) (l : Event) :
    (Instance.screen_time s en l).1.paused = s.paused ∧
    (Instance.screen_time s en l).1.short_break = s.short_break ∧
    (Instance.screen_time s en l).1.prompts = s.prompts ∧
    (Instance.screen_time s en l).1.uncaptured_prompts = s.uncaptured_prompts := by
  unfold Instance.screen_time
  cases en with
  | none => exact ⟨rfl, rfl, rfl, rfl⟩
  | some e =>
    dsimp only
    split_ifs
    · dsimp only
      refine aggFoldPreserve
          (fun s' => s'.paused = s.paused ∧ s'.short_break = s.short_break ∧
            s'.prompts = s.prompts ∧ s'.uncaptured_prompts = s.uncaptured_prompts)
          _ ?_ _ s ?_
      · intro s' a hp
        exact hp
      · exact ⟨rfl, rfl, rfl, rfl⟩
    · dsimp only
      refine aggFoldPreserve
          (fun s' => s'.paused = s.paused ∧ s'.short_break = s.short_break ∧
            s'.prompts = s.prompts ∧ s'.uncaptured_prompts = s.uncaptured_prompts)
          _ ?_ _ s ?_
      · intro s' a hp
        exact hp
      · exact ⟨rfl, rfl, rfl, rfl⟩
    · exact ⟨rfl, rfl, rfl, rfl⟩

/-- Python `screen_cc` touches only `prompt_cc`. -/
@[simp] theorem screen_cc_fields (s : AggState) (e : Event) :
    (Instance.screen_cc s e).paused = s.paused ∧
    (Instance.screen_cc s e).short_break = s.short_break ∧
    (Instance.screen_cc s e).prompts = s.prompts ∧
    (Instance.screen_cc s e).uncaptured_prompts = s.uncaptured_prompts := by
  unfold Instance.screen_cc
  refine aggFoldPreserve
      (fun s' => s'.paused = s.paused ∧ s'.short_break = s.short_break ∧
        s'.prompts = s.prompts ∧ s'.uncaptured_prompts = s.uncaptured_prompts)
      _ ?_ _ s ?_
  · intro s' a hp
    exact hp
  · exact ⟨rfl, rfl, rfl, rfl⟩

/-- Python `screen_visit` preserves `paused`, `short_break` and `prompts`. -/
@[simp] theorem screen_visit_fields (s : AggState) (e : Event) :
    (Instance.screen_visit s e).paused = s.paused ∧
    (Instance.screen_visit s e).short_break = s.short_break ∧
    (Instance.screen_visit s e).prompts = s.prompts := by
  unfold Instance.screen_visit
  refine aggFoldPreserve
    (fun s' => s'.paused = s.paused ∧ s'.short_break = s.short_break ∧
        s'.prompts = s.prompts)
    _ ?_ _ s ?_
  · intro s' a hp
    have h := update_screen_visits_fields s' a
    exact ⟨h.1.trans hp.1, h.2.1.trans hp.2.1, h.2.2.trans hp.2.2⟩
  · exact ⟨rfl, rfl, rfl⟩

/-- Python `track_prompt_value` touches only `prompt_value` and
`prompt_changes`. -/
@[simp] theorem track_prompt_value_fields (s : AggState) (e : Event) :
    (Instance.track_prompt_value s e).paused = s.paused ∧
    (Instance.track_prompt_value s e).short_break = s.short_break ∧
    (Instance.track_prompt_value s e).prompts = s.prompts ∧
    (Instance.track_prompt_value s e).uncaptured_prompts =
      s.uncaptured_prompts := by
  unfold Instance.track_prompt_value
  refine aggFoldPreserve
      (fun s' => s'.paused = s.paused ∧ s'.short_break = s.short_break ∧
        s'.prompts = s.prompts ∧ s'.uncaptured_prompts = s.uncaptured_prompts)
      _ ?_ _ s ?_
  · intro s' a hp
    have h := track_prompt_value_row_fields s' a
    exact ⟨h.1.trans hp.1, h.2.1.trans hp.2.1, h.2.2.1.trans hp.2.2.1,
      h.2.2.2.trans hp.2.2.2⟩
  · exact ⟨rfl, rfl, rfl, rfl⟩

/-- The state component of `track_question_resumed_time` touches only
`prompt_resumed` and `last_enter`. -/
@[simp] theorem track_question_resumed_time_fields (s : AggState) (e : Event) :
    (Instance.track_question_resumed_time s e).1.paused = s.paused ∧
    (Instance.track_question_resumed_time s e).1.short_break = s.short_break ∧
    (Instance.track_question_resumed_time s e).1.prompts = s.prompts ∧
    (Instance.track_question_resumed_time s e).1.uncaptured_prompts =
      s.uncaptured_prompts := by
  unfold Instance.track_question_resumed_time
  dsimp only
  split_ifs
  · exact ⟨rfl, rfl, rfl, rfl⟩
  · exact ⟨rfl, rfl, rfl, rfl⟩
  · exact ⟨(screen_time_fields s s.last_enter e).1,
      (screen_time_fields s s.last_enter e).2.1,
      (screen_time_fields s s.last_enter e).2.2.1,
      (screen_time_fields s s.last_enter e).2.2.2⟩
  · exact ⟨rfl, rfl, rfl, rfl⟩
  · exact ⟨rfl, rfl, rfl, rfl⟩

/-- Python `track_countables` preserves `paused`, `short_break` and `prompts`. -/
@[simp] theorem track_countables_fields (s : AggState) (e : Event) :
    (Instance.track_countables s e).paused = s.paused ∧
    (Instance.track_countables s e).short_break = s.short_break ∧
    (Instance.track_countables s e).prompts = s.prompts := by
  unfold Instance.track_countables
  dsimp only
  split_ifs <;> simp

/-- Python `check_event_order` can only warn about out-of-order events. -/
theorem check_event_order_mem (st : AggState) (e : Event) (x : String)
    (hx : x ∈ Instance.check_event_order st e) : x = "Out of order events" := by
  unfold Instance.check_event_order at hx
  split at hx
  · split_ifs at hx
    · exact List.mem_singleton.mp hx
    · exact absurd hx (List.not_mem_nil x)
  · exact absurd hx (List.not_mem_nil x)

/-- Python `track_resume_pause` only emits its four session warnings. -/
theorem track_resume_pause_mem (st : AggState) (e : Event) (x : String)
    (hx : x ∈ (Instance.track_resume_pause st e).2) :
    x = "Still oR, oR without oP" ∨ x = "Before first oR, found oP" ∨
    x = "Large resumed time" ∨ x = "oP, oP without oR" := by
  unfold Instance.track_resume_pause at hx
  split_ifs at hx
  · split at hx
    · exact absurd hx (List.not_mem_nil x)
    · exact absurd hx (List.not_mem_nil x)
    · exact Or.inl (List.mem_singleton.mp hx)
    · exact absurd hx (List.not_mem_nil x)
  · split at hx
    · exact Or.inr (Or.inl (List.mem_singleton.mp hx))
    · dsimp only at hx
      split_ifs at hx
      · exact Or.inr (Or.inr (Or.inl (List.mem_singleton.mp hx)))
      · exact absurd hx (List.not_mem_nil x)
    · exact Or.inr (Or.inr (Or.inr (List.mem_singleton.mp hx)))
    · exact absurd hx (List.not_mem_nil x)
  · exact absurd hx (List.not_mem_nil x)

/-- The only warning `screen_time` emits is the unmatched enter/exit
warning. -/
theorem screen_time_mem (st : AggState) (en : Option Event) (l : Event)
    (x : String) (hx : x ∈ (Instance.screen_time st en l).2) :
    x = "Unmatched enter/exit event" := by
  unfold Instance.screen_time at hx
  split at hx
  · exact absurd hx (List.not_mem_nil x)
  · dsimp only at hx
    split_ifs at hx
    · exact List.mem_singleton.mp hx
    · exact absurd hx (List.not_mem_nil x)
    · exact absurd hx (List.not_mem_nil x)

/-- The only warning `track_question_resumed_time` emits comes from
`screen_time`. -/
theorem track_question_resumed_time_mem (st : AggState) (e : Event)
    (x : String) (hx : x ∈ (Instance.track_question_resumed_time st e).2) :
    x = "Unmatched enter/exit event" := by
  unfold Instance.track_question_resumed_time at hx
  dsimp only at hx
  split_ifs at hx
  · exact absurd hx (List.not_mem_nil x)
  · exact absurd hx (List.not_mem_nil x)
  · exact screen_time_mem st st.last_enter e x hx
  · exact absurd hx (List.not_mem_nil x)
  · exact absurd hx (List.not_mem_nil x)

/-- CLAIM C5 (amended). The stage of every constructed event is derived
from its code and the first (and only stored) row's xpath and is one of
exactly three values — RELATION, BOOKEND, QUESTION; no ERROR stage exists,
and no iteration of the aggregation loop ever emits an "unknown event"
warning (the loop performs no stage check at all). -/
theorem stage_three_values_no_unknown_warning :
    (∀ (st : AggState) (e : Event),
      decide ("unknown event" ∈ (Instance.aggStep st e).2) = false) ∧
    (∀ (r : Row) (l : Int),
      (Event.ofRow r l).stage = Event.get_stage r.code r.xpath ∧
      ((Event.ofRow r l).stage = Event.RELATION ∨
       (Event.ofRow r l).stage = Event.BOOKEND ∨
       (Event.ofRow r l).stage = Event.QUESTION)) := by
  constructor
  · intro st e
    apply decide_eq_false
    intro hmem
    unfold Instance.aggStep at hmem
    dsimp only at hmem
    rcases List.mem_append.mp hmem with hmem12 | hmem3
    · rcases List.mem_append.mp hmem12 with h1 | h2
      · exact absurd (check_event_order_mem st e _ h1) (by decide)
      · rcases track_resume_pause_mem st e _ h2 with h | h | h | h <;>
          exact absurd h (by decide)
    · exact absurd (track_question_resumed_time_mem _ e _ hmem3) (by decide)
  · intro r l
    refine ⟨rfl, ?_⟩
    show Event.get_stage r.code r.xpath = Event.RELATION ∨
      Event.get_stage r.code r.xpath = Event.BOOKEND ∨
      Event.get_stage r.code r.xpath = Event.QUESTION
    unfold Event.get_stage
    split_ifs
    · exact Or.inl rfl
    · exact Or.inr (Or.inl rfl)
    · exact Or.inr (Or.inr rfl)

/-- Python `update_paused` adds exactly the positive part to `paused` and the
sub-threshold positive part to `short_break`. -/
theorem update_paused_spec (s : AggState) (d : Int) :
    (Instance.update_paused s d).paused = s.paused + (if 0 < d then d else 0) ∧
    (Instance.update_paused s d).short_break =
      s.short_break +
        (if 0 < d ∧ d < Instance.short_break_threshold then d else 0) := by
  unfold Instance.update_paused
  dsimp only
  constructor
  all_goals split_ifs
  all_goals try dsimp only
  all_goals omega

/-- CLAIM C6 (amended). When a resume-marker event arrives while a pause is
open and no resume is open, the aggregation computes the gap with
`Event.__sub__`, i.e. `paused_diff = resume.max_time - pause.min_time`; it
is added to `paused` exactly when positive and additionally to
`short_break` exactly when positive and below the 1,800,000 ms
threshold. -/
theorem paused_diff_formula :
    ∀ (st : AggState) (lp e : Event),
      st.last_pause = some lp → st.last_resume = none → e.code = "oR" →
      (Instance.aggStep st e).1.paused =
        st.paused + (if 0 < Event.sub e lp then Event.sub e lp else 0) ∧
      (Instance.aggStep st e).1.short_break =
        st.short_break +
          (if 0 < Event.sub e lp ∧
              Event.sub e lp < Instance.short_break_threshold
           then Event.sub e lp else 0) := by
  intro st lp e hlp hlr hcode
  have hstep :
      (Instance.aggStep st e).1.paused =
        (Instance.track_resume_pause st e).1.paused ∧
      (Instance.aggStep st e).1.short_break =
        (Instance.track_resume_pause st e).1.short_break := by
    unfold Instance.aggStep
    dsimp only
    constructor
    · rw [(track_prompt_value_fields _ e).1, (track_countables_fields _ e).1,
        (track_question_resumed_time_fields _ e).1]
    · rw [(track_prompt_value_fields _ e).2.1, (track_countables_fields _ e).2.1,
        (track_question_resumed_time_fields _ e).2.1]
  have htrp :
      (Instance.track_resume_pause st e).1 =
        { Instance.update_paused (Instance.screen_short_break_time st lp e)
            (Event.sub e lp) with
          last_resume := some e, last_pause := none } := by
    unfold Instance.track_resume_pause
    rw [hcode, hlp, hlr]
    simp
  have hX := screen_short_break_time_fields st lp e
  have hU := update_paused_spec (Instance.screen_short_break_time st lp e)
    (Event.sub e lp)
  constructor
  · rw [hstep.1, htrp]
    show (Instance.update_paused (Instance.screen_short_break_time st lp e)
      (Event.sub e lp)).paused = _
    rw [hU.1, hX.1]
  · rw [hstep.2, htrp]
    show (Instance.update_paused (Instance.screen_short_break_time st lp e)
      (Event.sub e lp)).short_break = _
    rw [hU.2, hX.2.1]

/-- Witness for C6: the amended formula applied at the concrete open pause
[100, 200] and arriving resume [300, 400]. -/
theorem paused_diff_formula_witness :
    (Instance.aggStep pausedDiffState pausedDiffResume).1.paused =
      pausedDiffState.paused +
        (if 0 < Event.sub pausedDiffResume pausedDiffPause
         then Event.sub pausedDiffResume pausedDiffPause else 0) ∧
    (Instance.aggStep pausedDiffState pausedDiffResume).1.short_break =
      pausedDiffState.short_break +
        (if 0 < Event.sub pausedDiffResume pausedDiffPause ∧
            Event.sub pausedDiffResume pausedDiffPause <
              Instance.short_break_threshold
         then Event.sub pausedDiffResume pausedDiffPause else 0) :=
  paused_diff_formula pausedDiffState pausedDiffPause pausedDiffResume rfl rfl rfl

/-- The state part of `track_resume_pause` never touches `prompts` or
`uncaptured_prompts`. -/
@[simp] theorem track_resume_pause_fields (st : AggState) (e : Event) :
    (Instance.track_resume_pause st e).1.prompts = st.prompts ∧
    (Instance.track_resume_pause st e).1.uncaptured_prompts =
      st.uncaptured_prompts := by
  unfold Instance.track_resume_pause
  dsimp only
  split_ifs
  · split <;> simp
  · split <;> first
      | (split_ifs <;> simp)
      | simp
  · exact ⟨rfl, rfl⟩

/-- Python `screen_visit` keeps the tracked prompt list fixed and only adds
untracked prompts to `uncaptured_prompts`. -/
theorem screen_visit_uncapInv (tracked : List String) (s : AggState) (e : Event)
    (hpr : s.prompts = tracked)
    (hun : ∀ q ∈ s.uncaptured_prompts, q ∉ tracked) :
    (Instance.screen_visit s e).prompts = tracked ∧
    ∀ q ∈ (Instance.screen_visit s e).uncaptured_prompts, q ∉ tracked := by
  unfold Instance.screen_visit
  refine aggFoldPreserve
    (fun s' => s'.prompts = tracked ∧ ∀ q ∈ s'.uncaptured_prompts, q ∉ tracked)
    _ ?_ _ s ?_
  · intro s' a hp
    constructor
    · exact ((update_screen_visits_fields s' a).2.2).trans hp.1
    · intro q hq
      rcases update_screen_visits_uncaptured s' a q hq with hin | ⟨hqa, hnm⟩
      · exact hp.2 q hin
      · subst hqa
        rw [hp.1] at hnm
        exact hnm
  · exact ⟨hpr, hun⟩

/-- Python `track_countables` keeps the tracked prompt list fixed and only adds
untracked prompts to `uncaptured_prompts`. -/
theorem track_countables_uncapInv (tracked : List String) (s : AggState)
    (e : Event) (hpr : s.prompts = tracked)
    (hun : ∀ q ∈ s.uncaptured_prompts, q ∉ tracked) :
    (Instance.track_countables s e).prompts = tracked ∧
    ∀ q ∈ (Instance.track_countables s e).uncaptured_prompts, q ∉ tracked := by
  have hsv := screen_visit_uncapInv tracked s e hpr hun
  have hcc : ∀ (s' : AggState),
      (s'.prompts = tracked ∧ ∀ q ∈ s'.uncaptured_prompts, q ∉ tracked) →
      ((Instance.screen_cc s' e).prompts = tracked ∧
        ∀ q ∈ (Instance.screen_cc s' e).uncaptured_prompts, q ∉ tracked) := by
    intro s' hp
    exact ⟨((screen_cc_fields s' e).2.2.1).trans hp.1,
      fun q hq => hp.2 q ((screen_cc_fields s' e).2.2.2 ▸ hq)⟩
  unfold Instance.track_countables
  dsimp only
  split_ifs <;>
    first
      | exact hcc _ ⟨hsv.1, hsv.2⟩
      | exact hcc s ⟨hpr, hun⟩
      | exact ⟨hsv.1, hsv.2⟩
      | exact ⟨hpr, hun⟩

/-- One aggregation step keeps the tracked prompt list fixed and only adds
untracked prompts to `uncaptured_prompts`. -/
theorem aggStep_uncapInv (tracked : List String) (s : AggState) (e : Event)
    (hpr : s.prompts = tracked)
    (hun : ∀ q ∈ s.uncaptured_prompts, q ∉ tracked) :
    (Instance.aggStep s e).1.prompts = tracked ∧
    ∀ q ∈ (Instance.aggStep s e).1.uncaptured_prompts, q ∉ tracked := by
  unfold Instance.aggStep
  dsimp only
  have h2 := track_resume_pause_fields s e
  have h2pr : (Instance.track_resume_pause s e).1.prompts = tracked :=
    h2.1.trans hpr
  have h2un : ∀ q ∈ (Instance.track_resume_pause s e).1.uncaptured_prompts,
      q ∉ tracked := fun q hq => hun q (h2.2 ▸ hq)
  have h3 := track_question_resumed_time_fields (Instance.track_resume_pause s e).1 e
  have h3pr :
      (Instance.track_question_resumed_time
        (Instance.track_resume_pause s e).1 e).1.prompts = tracked :=
    (h3.2.2.1).trans h2pr
  have h3un : ∀ q ∈ (Instance.track_question_resumed_time
      (Instance.track_resume_pause s e).1 e).1.uncaptured_prompts, q ∉ tracked :=
    fun q hq => h2un q (h3.2.2.2 ▸ hq)
  have h4 := track_countables_uncapInv tracked _ e h3pr h3un
  have h5 := track_prompt_value_fields (Instance.track_countables
    (Instance.track_question_resumed_time
      (Instance.track_resume_pause s e).1 e).1 e) e
  exact ⟨(h5.2.2.1).trans h4.1, fun q hq => h4.2 q (h5.2.2.2 ▸ hq)⟩

/-- CLAIM C9 (amended). The per-prompt maps are keyed by every prompt the
respective update paths encounter — tracked or not — so their key sets are
not restricted to the tracked prompt list; what does hold is the
`uncaptured_prompts` half of the claim: after processing any event
sequence with any tracked prompt list, every member of
`uncaptured_prompts` is outside the tracked list. -/
theorem uncaptured_disjoint_invariant :
    ∀ (tracked : List String) (events : List Event) (p : String),
      p ∈ (Instance.aggRun tracked events).uncaptured_prompts → p ∉ tracked := by
  intro tracked events p hmem
  have hQ := aggFoldPreserve
    (fun s' => s'.prompts = tracked ∧ ∀ q ∈ s'.uncaptured_prompts, q ∉ tracked)
    (fun st e => (Instance.aggStep st e).1)
    (fun s' e hp => aggStep_uncapInv tracked s' e hp.1 hp.2)
    events (Instance.initState tracked)
    ⟨rfl, fun q hq => absurd hq (List.not_mem_nil q)⟩
  exact hQ.2 p hmem

/-- Witness for C9: the invariant applied to the concrete run of one
QUESTION-stage `EP` event on prompt `b` with an empty tracked list. -/
theorem uncaptured_disjoint_invariant_witness :
    "b" ∈ (Instance.aggRun [] [untrackedVisitEvent]).uncaptured_prompts ∧
    "b" ∉ ([] : List String) := by
  have hmem : "b" ∈ (Instance.aggRun [] [untrackedVisitEvent]).uncaptured_prompts := by
    have he : (Instance.aggRun [] [untrackedVisitEvent]).uncaptured_prompts = ["b"] := rfl
    rw [he]
    exact List.mem_singleton.mpr rfl
  exact ⟨hmem, uncaptured_disjoint_invariant [] [untrackedVisitEvent] "b" hmem⟩
